import Mathlib

/-!
Verification of the deeplinkview interactive graph canvas.

This file shallowly embeds the state, parsing, geometry, viewport and
hit-testing code of the repository (`links_canvas.py`, `app.py`,
`legacy/graph_canvas.py`) as executable Lean definitions over exact
rationals, and proves or refutes the specified properties about them.

Conventions of the embedding:
* Python dicts keyed by link id are association lists `List (Int × _)`
  in insertion order (Python 3.7+ dict semantics); `dict.get(k, d)` is
  `lookupD`, `k in dict` is `hasKey`, and `dict[k] = v` is `setPos`.
* Python floats are `ℚ`; every arithmetic operation exercised by the
  theorems below is exact, so no rounding model is needed.
* `None` values inside parsed link records are `Option Int`.
-/

namespace DeepLinkView

/-- A 2D point in data space. -/
abbrev Point := ℚ × ℚ

/-- One parsed link record: `{'from': from_val, 'to': to_val}` in
`links_canvas.py`, where each value is an `int` or `None`. -/
structure Link where
  fromId : Option Int
  toId   : Option Int
deriving DecidableEq, Repr

/-- `self.links` : insertion-ordered mapping from link id to record. -/
abbrev LinksMap := List (Int × Link)

/-- `self.link_positions` : insertion-ordered mapping from id to position. -/
abbrev Positions := List (Int × Point)

/-- `dict.get(k, d)`: the value stored under `k`, or the default `d`. -/
def lookupD {β : Type} : List (Int × β) → Int → β → β
  | [], _, d => d
  | (a, b) :: t, k, d => if k = a then b else lookupD t k d

/-- `dict[k]` as a partial lookup (`k in dict` decides which branch the
source takes before using it). -/
def lookupOpt {β : Type} : List (Int × β) → Int → Option β
  | [], _ => none
  | (a, b) :: t, k => if k = a then some b else lookupOpt t k

/-- Python `k in dict`. -/
def hasKey {β : Type} : List (Int × β) → Int → Bool
  | [], _ => false
  | (a, _) :: t, k => if k = a then true else hasKey t k

/-- `self.link_positions.get(i, (0, 0))` — position lookup with the
`(0, 0)` default used throughout `links_canvas.py`. -/
def posGet (positions : Positions) (i : Int) : Point :=
  lookupD positions i (0, 0)

/-- `self.link_positions.get(key, (0, 0))` where `key` may be `None`
(a `None` key is never present, so the default is returned). -/
def posGetOpt (positions : Positions) (o : Option Int) : Point :=
  match o with
  | some i => posGet positions i
  | none => (0, 0)

/-! ## CSV parsing (`load_links_from_csv`, links_canvas.py lines 54-94) -/

/-- One CSV cell, classified the way the source's expression
`int(row[i]) if row[i].strip() else None` distinguishes string cells:
`blank` when `strip()` returns an empty string, `numeral n` when
`int(cell)` returns `n`, and `garbage` when `int(cell)` raises
`ValueError` (non-blank, non-numeric).  Python's `strip`/`int` library
behavior is modelled by this classification rather than re-implemented
character by character. -/
inductive Cell where
  | blank
  | numeral (n : Int)
  | garbage
deriving DecidableEq, Repr

/-- The cell expression `int(cell) if cell.strip() else None`, with a
`ValueError` from `int` modelled as `Except.error`. -/
def parseVal : Cell → Except Unit (Option Int)
  | .blank => .ok none
  | .numeral n => .ok (some n)
  | .garbage => .error ()

/-- One data row of the loop body: rows with fewer than two cells are
skipped (`continue`), and a `ValueError` from either `int` call skips
the whole row (`except (ValueError, IndexError): continue`). -/
def parseRow (row : List Cell) : Option Link :=
  match row with
  | a :: b :: _ =>
    match parseVal a, parseVal b with
    | .ok f, .ok t => some ⟨f, t⟩
    | _, _ => none
  | _ => none

/-- The parsing loop `for row_id, row in enumerate(reader, start=1)`:
link ids are 1-based row indices, and skipped rows still consume an id. -/
def parseRows (dataRows : List (List Cell)) : LinksMap :=
  dataRows.enum.filterMap fun p =>
    (parseRow p.2).map fun l => (((p.1 : Int) + 1), l)

/-- The mutable model state of `InteractiveLinksCanvas` relevant to
loading: `self.links` and `self.link_positions`. -/
structure LinksState where
  links : LinksMap
  link_positions : Positions
deriving DecidableEq, Repr

/-- `load_links_from_csv`: clears `self.links`, `self.link_positions`
and the artists *before* parsing; skips the header row
(`next(reader, None)`); raises (and returns `False` from the handler)
when no valid link was parsed; otherwise applies the layout provider and
returns `True`.  The layout provider (`nx.spring_layout` and friends) is
an external collaborator and is passed in as `layoutFn`. -/
def load_links_from_csv (layoutFn : LinksMap → Positions)
    (_st : LinksState) (rows : List (List Cell)) : LinksState × Bool :=
  -- the pre-call state `_st` is cleared unconditionally at the top of the
  -- method, which is why it does not appear in either result branch
  let parsed := parseRows rows.tail
  if parsed = [] then
    ({ links := [], link_positions := [] }, false)
  else
    ({ links := parsed, link_positions := layoutFn parsed }, true)

/-! ## Stats and classification -/

/-- `get_stats` (links_canvas.py lines 96-99): counts every link with
`link['from'] == link['to']` as a self-link (Python `None == None` is
`True`), returning `(len(self.links), self_links)`. -/
def get_stats (links : LinksMap) : Nat × Nat :=
  (links.length, links.countP fun p => decide (p.2.fromId = p.2.toId))

/-- The three artist shapes produced by `_create_link_artist`:
a self-loop curve, a regular arrow with its two endpoints, or a plain
circle for a link rendered as a bare node.  Only the geometry that the
drawing code computes (centers and endpoints) is retained. -/
inductive Artist where
  | loopA (center : Point)
  | arrowA (startP endP : Point)
  | nodeA (center : Point)
deriving DecidableEq, Repr

/-- Classification used by `_create_link_artist` (lines 156-173):
self-loop iff `from_id == link_id and to_id == link_id`, regular iff
both references present, bare node otherwise. -/
inductive LinkKind where
  | loop
  | arrow
  | node
deriving DecidableEq, Repr

/-- The branch taken by `_create_link_artist` for a given id and record. -/
def artistKind (link_id : Int) (l : Link) : LinkKind :=
  if l.fromId = some link_id ∧ l.toId = some link_id then .loop
  else if l.fromId.isSome ∧ l.toId.isSome then .arrow
  else .node

/-! ## Regular-link geometry (`_draw_regular_link`, lines 201-232) -/

/-- `_draw_regular_link`: start at the raw position of `from_id`, end at
the raw position of `to_id`; when the referenced id is itself a link
whose `from != to` (`from_id in self.links and
self.links[from_id]['from'] != self.links[from_id]['to']`), replace
that endpoint by the midpoint of the referenced link's own from/to
positions.  A referenced self-loop (`from == to`) fails the condition,
so its endpoint stays the raw stored position —
`_get_loop_connection_point` is never called here. -/
def _draw_regular_link (links : LinksMap) (positions : Positions)
    (from_id to_id : Int) : Point × Point :=
  let d : Link := ⟨none, none⟩
  let start_pos := posGet positions from_id
  let end_pos := posGet positions to_id
  let start_pos :=
    if hasKey links from_id ∧
        (lookupD links from_id d).fromId ≠ (lookupD links from_id d).toId then
      let src_from := posGetOpt positions (lookupD links from_id d).fromId
      let src_to := posGetOpt positions (lookupD links from_id d).toId
      (((src_from.1 + src_to.1) / 2 : ℚ), ((src_from.2 + src_to.2) / 2 : ℚ))
    else start_pos
  let end_pos :=
    if hasKey links to_id ∧
        (lookupD links to_id d).fromId ≠ (lookupD links to_id d).toId then
      let tgt_from := posGetOpt positions (lookupD links to_id d).fromId
      let tgt_to := posGetOpt positions (lookupD links to_id d).toId
      (((tgt_from.1 + tgt_to.1) / 2 : ℚ), ((tgt_from.2 + tgt_to.2) / 2 : ℚ))
    else end_pos
  (start_pos, end_pos)

/-- `_create_link_artist` (lines 156-173): dispatch on the record
(`self.links[link_id]`, present for every created id).
`_update_link_artist` (lines 512-542) recreates the artist with the
equivalent branching (`from_id == to_id == link_id` there is equivalent
to `from_id == link_id and to_id == link_id` here, since an integer id
never equals `None`). -/
def _create_link_artist (links : LinksMap) (positions : Positions)
    (link_id : Int) : Artist :=
  let l := lookupD links link_id ⟨none, none⟩
  let pos := posGet positions link_id
  if l.fromId = some link_id ∧ l.toId = some link_id then
    .loopA pos
  else if l.fromId.isSome ∧ l.toId.isSome then
    let e := _draw_regular_link links positions (l.fromId.getD 0) (l.toId.getD 0)
    .arrowA e.1 e.2
  else .nodeA pos

/-- `create_artists` (lines 152-154): one artist per link, in insertion
order. -/
def create_artists (links : LinksMap) (positions : Positions) :
    List (Int × Artist) :=
  links.map fun p => (p.1, _create_link_artist links positions p.1)

/-- `_update_link_artist(link_id)` (lines 512-542): removes and
recreates only the artist stored under `link_id`; every other artist is
left untouched.  An id with no stored artist is a no-op (`return`). -/
def _update_link_artist (links : LinksMap) (positions : Positions)
    (artists : List (Int × Artist)) (link_id : Int) : List (Int × Artist) :=
  artists.map fun p =>
    if p.1 = link_id then (p.1, _create_link_artist links positions link_id)
    else p

/-- Python dict assignment `self.link_positions[i] = p`: replace in
place when the key exists, append otherwise. -/
def setPos (positions : Positions) (i : Int) (p : Point) : Positions :=
  if hasKey positions i then
    positions.map fun q => if q.1 = i then (q.1, p) else q
  else positions ++ [(i, p)]

/-- The dragging branch of `on_motion` (lines 466-469): store the new
pointer position for the selected link, then refresh *only* that link's
artist via `_update_link_artist(self.selected_link)`. -/
def on_motion_drag (links : LinksMap) (positions : Positions)
    (artists : List (Int × Artist)) (selected : Int) (newPos : Point) :
    Positions × List (Int × Artist) :=
  let positions2 := setPos positions selected newPos
  (positions2, _update_link_artist links positions2 artists selected)

/-! ## Self-loop connection rule (`_get_loop_connection_point`, lines 296-304) -/

/-- `self.node_size = 0.15`. -/
def node_size : ℚ := 3 / 20

/-- Trigonometry-free characterization of the point computed by
`_get_loop_connection_point(loop_pos, target_pos, outward=True)`:
the source takes `angle = arctan2(target - loop)` and returns
`loop_pos + loop_size * 0.7 * (cos angle, sin angle)` with
`loop_size = node_size * 0.7`; for `target_pos ≠ loop_pos` that is
exactly the point of the forward ray from `loop_pos` toward
`target_pos` whose distance from `loop_pos` is `node_size * 0.7 * 0.7`. -/
def is_loop_connection_point (loop_pos target_pos p : Point) : Prop :=
  (∃ t : ℚ, 0 ≤ t ∧
    p.1 - loop_pos.1 = t * (target_pos.1 - loop_pos.1) ∧
    p.2 - loop_pos.2 = t * (target_pos.2 - loop_pos.2)) ∧
  (p.1 - loop_pos.1) ^ 2 + (p.2 - loop_pos.2) ^ 2 =
    (node_size * (7 / 10) * (7 / 10)) ^ 2

/-! ## Viewport, auto-fit and zoom -/

/-- The visible data-space rectangle: `self.ax.get_xlim()/get_ylim()`. -/
structure Viewport where
  xlim : ℚ × ℚ
  ylim : ℚ × ℚ
deriving DecidableEq, Repr

/-- Device metrics: `self.fig.get_size_inches()` and `self.fig.dpi`. -/
structure FigMetrics where
  fig_width : ℚ
  fig_height : ℚ
  dpi : ℚ
deriving DecidableEq, Repr

/-- The matplotlib axes transform from data space to device pixels for
an axes filling the figure: the affine map sending `xlim` onto
`[0, fig_width * dpi]` and `ylim` onto `[0, fig_height * dpi]`. -/
def dataToDevice (m : FigMetrics) (v : Viewport) (p : Point) : Point :=
  ((p.1 - v.xlim.1) / (v.xlim.2 - v.xlim.1) * (m.fig_width * m.dpi),
   (p.2 - v.ylim.1) / (v.ylim.2 - v.ylim.1) * (m.fig_height * m.dpi))

/-- Python `min(nonempty_list)`. -/
def minList : List ℚ → ℚ
  | [] => 0
  | x :: xs => xs.foldl min x

/-- Python `max(nonempty_list)`. -/
def maxList : List ℚ → ℚ
  | [] => 0
  | x :: xs => xs.foldl max x

/-- `reset_view` (links_canvas.py lines 355-375): per-axis padding
`max(0.2, range * 0.2)` — factor `0.2`, no special case for a zero
range — then `zoom_level = 1.0`.  Returns `none` for the early-exit
when there are no positions. -/
def reset_view (positions : Positions) : Option (Viewport × ℚ) :=
  if positions = [] then none
  else
    let all_x := positions.map fun p => p.2.1
    let all_y := positions.map fun p => p.2.2
    let x_min := minList all_x
    let x_max := maxList all_x
    let y_min := minList all_y
    let y_max := maxList all_y
    let x_padding := max (1 / 5) ((x_max - x_min) * (1 / 5))
    let y_padding := max (1 / 5) ((y_max - y_min) * (1 / 5))
    some (⟨(x_min - x_padding, x_max + x_padding),
           (y_min - y_padding, y_max + y_padding)⟩, 1)

/-- `auto_scale` (app.py lines 128-153, legacy/graph_canvas.py lines
120-144): per-axis padding `max(0.2, range * 0.3)` when the range is
positive, a fixed `0.5` otherwise, then `zoom_level = 1.0`. -/
def auto_scale (positions : Positions) : Option (Viewport × ℚ) :=
  if positions = [] then none
  else
    let all_x := positions.map fun p => p.2.1
    let all_y := positions.map fun p => p.2.2
    let x_min := minList all_x
    let x_max := maxList all_x
    let y_min := minList all_y
    let y_max := maxList all_y
    let x_range := x_max - x_min
    let y_range := y_max - y_min
    let x_padding := if x_range > 0 then max (1 / 5) (x_range * (3 / 10)) else 1 / 2
    let y_padding := if y_range > 0 then max (1 / 5) (y_range * (3 / 10)) else 1 / 2
    some (⟨(x_min - x_padding, x_max + x_padding),
           (y_min - y_padding, y_max + y_padding)⟩, 1)

/-- The spec's auto-fit padding rule, stated from its words for
comparison with the source embeddings: `max(0.2, range*0.3)` if
`range > 0`, else a fixed `0.5`. -/
def specPadding (range : ℚ) : ℚ :=
  if range > 0 then max (1 / 5) (range * (3 / 10)) else 1 / 2

/-- The x extent `auto_scale` would establish: the auto-fit base range. -/
def autofit_xlim (positions : Positions) : ℚ × ℚ :=
  let xs := positions.map fun p => p.2.1
  (minList xs - specPadding (maxList xs - minList xs),
   maxList xs + specPadding (maxList xs - minList xs))

/-- The y extent `auto_scale` would establish. -/
def autofit_ylim (positions : Positions) : ℚ × ℚ :=
  let ys := positions.map fun p => p.2.2
  (minList ys - specPadding (maxList ys - minList ys),
   maxList ys + specPadding (maxList ys - minList ys))

/-- `set_zoom` (links_canvas.py lines 377-389): divides the *current*
viewport ranges by `zoom_level`, keeping the current center.  This is
the handler behind the links-viewer zoom slider
(`main_window.adjust_zoom` calls `set_zoom(value / 100.0)`). -/
def set_zoom (v : Viewport) (zoom_level : ℚ) : Viewport × ℚ :=
  let center_x := (v.xlim.1 + v.xlim.2) / 2
  let center_y := (v.ylim.1 + v.ylim.2) / 2
  let width := (v.xlim.2 - v.xlim.1) / zoom_level
  let height := (v.ylim.2 - v.ylim.1) / zoom_level
  (⟨(center_x - width / 2, center_x + width / 2),
    (center_y - height / 2, center_y + height / 2)⟩, zoom_level)

/-- `GraphViewer.adjust_zoom` (app.py lines 531-577): the slider value
is divided by 100, the auto-fit base extent is recomputed from the
current positions with the `auto_scale` padding rule, and the new
viewport has size `base / level` centered on the *current* view center.
Returns `none` on the empty-graph early exits. -/
def adjust_zoom (positions : Positions) (v : Viewport) (value : ℚ) :
    Option (Viewport × ℚ) :=
  let new_zoom_level := value / 100
  let current_center_x := (v.xlim.1 + v.xlim.2) / 2
  let current_center_y := (v.ylim.1 + v.ylim.2) / 2
  if positions = [] then none
  else
    let all_x := positions.map fun p => p.2.1
    let all_y := positions.map fun p => p.2.2
    let x_min := minList all_x
    let x_max := maxList all_x
    let y_min := minList all_y
    let y_max := maxList all_y
    let x_range := x_max - x_min
    let y_range := y_max - y_min
    let x_padding := if x_range > 0 then max (1 / 5) (x_range * (3 / 10)) else 1 / 2
    let y_padding := if y_range > 0 then max (1 / 5) (y_range * (3 / 10)) else 1 / 2
    let base_width := (x_max + x_padding) - (x_min - x_padding)
    let base_height := (y_max + y_padding) - (y_min - y_padding)
    let zoomed_width := base_width / new_zoom_level
    let zoomed_height := base_height / new_zoom_level
    some (⟨(current_center_x - zoomed_width / 2, current_center_x + zoomed_width / 2),
           (current_center_y - zoomed_height / 2, current_center_y + zoomed_height / 2)⟩,
          new_zoom_level)

/-- `on_scroll` (links_canvas.py lines 471-488, identically app.py lines
389-409): factor `1.25` for scroll-up, `0.8` for scroll-down; the mouse
data coordinate is used unless it is falsy (`0` falls back to the view
center, mirroring `event.xdata if event.xdata else ...`); the new
ranges have size `old / factor` and are *centered on the mouse point*. -/
def on_scroll (v : Viewport) (zoom_level : ℚ) (up : Bool) (mouse : Point) :
    Viewport × ℚ :=
  let zoom_factor : ℚ := if up then 5 / 4 else 4 / 5
  let zl := zoom_level * zoom_factor
  let mouse_x := if mouse.1 = 0 then (v.xlim.1 + v.xlim.2) / 2 else mouse.1
  let mouse_y := if mouse.2 = 0 then (v.ylim.1 + v.ylim.2) / 2 else mouse.2
  let new_width := (v.xlim.2 - v.xlim.1) / zoom_factor
  let new_height := (v.ylim.2 - v.ylim.1) / zoom_factor
  (⟨(mouse_x - new_width / 2, mouse_x + new_width / 2),
    (mouse_y - new_height / 2, mouse_y + new_height / 2)⟩, zl)

/-! ## Hit testing (`_get_link_at_position`, links_canvas.py lines
490-510; identically `get_node_at_position` in app.py lines 281-303 and
legacy/graph_canvas.py lines 210-225) -/

/-- The constant-apparent-size node radius in data units:
`15.0 / dpi * ((x_data_per_inch + y_data_per_inch) / 2)`. -/
def node_radius (m : FigMetrics) (v : Viewport) : ℚ :=
  15 / m.dpi *
    (((v.xlim.2 - v.xlim.1) / m.fig_width +
      (v.ylim.2 - v.ylim.1) / m.fig_height) / 2)

/-- The loop-body test `(lx - x)**2 + (ly - y)**2 <= node_radius**2`. -/
abbrev withinRadius (r : ℚ) (pos : Point) (q : Int × Point) : Prop :=
  (q.2.1 - pos.1) ^ 2 + (q.2.2 - pos.2) ^ 2 ≤ r ^ 2

/-- The hit-test loop: first stored position (dict insertion order)
whose center lies within `r` of the query point. -/
def findWithin (r : ℚ) (pos : Point) : Positions → Option Int
  | [] => none
  | q :: t => if withinRadius r pos q then some q.1 else findWithin r pos t

/-- `_get_link_at_position(pos)`: the guard `if not pos[0] or not
pos[1]: return None` rejects any query whose x or y coordinate is the
falsy value `0`; a zero-width or zero-height viewport also returns
`None`; otherwise the first stored position within `node_radius` wins. -/
def _get_link_at_position (m : FigMetrics) (v : Viewport)
    (positions : Positions) (pos : Point) : Option Int :=
  if pos.1 = 0 ∨ pos.2 = 0 then none
  else if v.xlim.2 - v.xlim.1 = 0 ∨ v.ylim.2 - v.ylim.1 = 0 then none
  else findWithin (node_radius m v) pos positions

/-! ## Concrete configurations used by the theorems -/

/-- A previously loaded graph: one self-loop with a position. -/
def priorState : LinksState :=
  { links := [(1, ⟨some 1, some 1⟩)], link_positions := [(1, (1 / 2, 1 / 2))] }

/-- A two-column CSV consisting of only the header row (the header
cells `from,to` are non-numeric strings). -/
def headerOnly : List (List Cell) := [[.garbage, .garbage]]

/-- Drag scenario: entity A = 1 (bare node), B = 2 with `B.from = 1`
(regular), C = 3 with `C.to = 2` (regular, references B). -/
def links3 : LinksMap :=
  [(1, ⟨none, none⟩), (2, ⟨some 1, some 3⟩), (3, ⟨some 3, some 2⟩)]

/-- Positions for the drag scenario. -/
def positions3 : Positions := [(1, (0, 0)), (2, (4, 0)), (3, (0, 4))]

/-- The spec scenario: meta-graph rows `1,1` then `2,1` — link 1 a
self-loop, link 2 a regular link pointing at it. -/
def links4 : LinksMap := [(1, ⟨some 1, some 1⟩), (2, ⟨some 2, some 1⟩)]

/-- Positions for the self-loop scenario: the loop at the origin, the
referencing link at `(1, 0)`. -/
def positions4 : Positions := [(1, (0, 0)), (2, (1, 0))]

/-- The spec's auto-fit example: positions spanning `x ∈ [0, 10]`,
`y ∈ [0, 0]`. -/
def positions5 : Positions := [(1, (0, 0)), (2, (10, 0))]

/-- Stats example: a true self-loop, a bare node with both references
absent, and a link with `from == to == 7` pointing elsewhere. -/
def links10 : LinksMap :=
  [(1, ⟨some 1, some 1⟩), (2, ⟨none, none⟩), (3, ⟨some 7, some 7⟩)]

/-- The figure metrics of both canvases: `figsize=(10, 8)`, dpi 100. -/
def m7 : FigMetrics := ⟨10, 8, 100⟩

/-- A non-degenerate viewport used in the hit-test examples. -/
def v7 : Viewport := ⟨(0, 4), (0, 4)⟩

/-- A single entity whose center has x-coordinate exactly 0. -/
def positions7 : Positions := [(1, (0, 1 / 2))]

/-! ## Theorems -/

/-- C1 (counterexample): a failed load of a header-only CSV does *not*
leave the previously loaded graph intact — `load_links_from_csv` clears
`self.links` and `self.link_positions` before parsing, so the prior
state (here a loaded self-loop) is gone after the failing call. -/
theorem load_failure_not_state_preserving :
    (load_links_from_csv (fun _ => []) priorState headerOnly).2 = false ∧
    (load_links_from_csv (fun _ => []) priorState headerOnly).1 ≠ priorState ∧
    (load_links_from_csv (fun _ => []) priorState headerOnly).1.links = [] := by
  refine ⟨rfl, ?_, rfl⟩
  intro hcontra
  have : priorState.links = [] := by rw [← hcontra]; rfl
  simp [priorState] at this

/-- C1 (amended): every load call that fails leaves the graph state
*empty* (links, adjacency and positions all cleared), regardless of the
state loaded before the call. -/
theorem load_failure_clears_state (layoutFn : LinksMap → Positions)
    (st : LinksState) (rows : List (List Cell))
    (h : (load_links_from_csv layoutFn st rows).2 = false) :
    (load_links_from_csv layoutFn st rows).1 =
      { links := [], link_positions := [] } := by
  by_cases hp : parseRows rows.tail = []
  · simp [load_links_from_csv, hp]
  · simp [load_links_from_csv, hp] at h

/-- Witness for C1's amended theorem at the header-only CSV. -/
theorem load_failure_clears_state_witness :
    (load_links_from_csv (fun _ => []) priorState headerOnly).2 = false ∧
    (load_links_from_csv (fun _ => []) priorState headerOnly).1 =
      { links := [], link_positions := [] } :=
  ⟨rfl, load_failure_clears_state (fun _ => []) priorState headerOnly rfl⟩

/-- C2 (code bug, evaluated at the failing input): `on_scroll` recenters
the view on the anchor instead of keeping the anchor's device location
fixed.  With viewport `(0,4) × (0,4)` on a 1000×800-pixel figure, anchor
`(1,1)` maps to device `(250, 200)` before the scroll and to the device
center `(500, 400)` after it, contradicting zoom-anchor invariance
(and app.py's own comment that the mouse pointer keeps its data
coordinate). -/
theorem scroll_zoom_recenters_on_anchor :
    dataToDevice m7 v7 (1, 1) = (250, 200) ∧
    on_scroll v7 1 true (1, 1) =
      (⟨(-3/5, 13/5), (-3/5, 13/5)⟩, 5/4) ∧
    dataToDevice m7 (on_scroll v7 1 true (1, 1)).1 (1, 1) = (500, 400) ∧
    ((500 : ℚ), (400 : ℚ)) ≠ ((250 : ℚ), (200 : ℚ)) := by
  norm_num [dataToDevice, on_scroll, m7, v7]

/-- C3 (counterexample): dragging entity 1 (to `(10, 0)`), where link 2
is regular with `from = 1` and link 3 references link 2, leaves link 3's
rendered artist at its stale endpoints `(2,2)→(0,2)` even though its
freshly computed geometry is `(2,2)→(5,2)` — the partial update does
not refresh links whose connection point depends on the moved entity. -/
theorem drag_leaves_dependent_artist_stale :
    lookupOpt (on_motion_drag links3 positions3
      (create_artists links3 positions3) 1 (10, 0)).2 3 =
        some (.arrowA (2, 2) (0, 2)) ∧
    _create_link_artist links3
      (on_motion_drag links3 positions3 (create_artists links3 positions3)
        1 (10, 0)).1 3 = .arrowA (2, 2) (5, 2) ∧
    Artist.arrowA (2, 2) (0, 2) ≠ .arrowA (2, 2) (5, 2) := by
  norm_num [on_motion_drag, _update_link_artist, create_artists,
    _create_link_artist, _draw_regular_link, setPos, posGet, posGetOpt,
    links3, positions3, lookupD, lookupOpt, hasKey]

/-- Updating the value stored under key `s` of an association list does
not change lookups of any other key `j`. -/
theorem lookupOpt_map_update {β : Type} (l : List (Int × β)) (s j : Int)
    (b : β) (h : j ≠ s) :
    lookupOpt (l.map fun q => if q.1 = s then (q.1, b) else q) j =
      lookupOpt l j := by
  induction l with
  | nil => rfl
  | cons a t ih =>
    obtain ⟨k, v⟩ := a
    by_cases hk : k = s
    · subst hk
      rw [List.map_cons, if_pos (show (k, v).1 = k from rfl)]
      simp [lookupOpt, h, ih]
    · simp only [List.map_cons, if_neg hk]
      by_cases hjk : j = k <;> simp [lookupOpt, hjk, ih]

/-- C3 (amended): the drag handler's partial update touches *only* the
dragged link's artist; every other artist — including regular links that
reference the dragged entity and links referencing those — keeps its
pre-drag geometry until the next full rebuild. -/
theorem drag_updates_only_selected_artist (links : LinksMap)
    (positions : Positions) (artists : List (Int × Artist))
    (selected : Int) (p : Point) (j : Int) (h : j ≠ selected) :
    lookupOpt (on_motion_drag links positions artists selected p).2 j =
      lookupOpt artists j := by
  simp only [on_motion_drag, _update_link_artist]
  exact lookupOpt_map_update artists selected j _ h

/-- Witness for C3's amended theorem: link 3 ≠ dragged link 1, and its
stored artist is unchanged by the drag. -/
theorem drag_updates_only_selected_artist_witness :
    (3 : Int) ≠ 1 ∧
    lookupOpt (on_motion_drag links3 positions3
      (create_artists links3 positions3) 1 (10, 0)).2 3 =
        lookupOpt (create_artists links3 positions3) 3 :=
  ⟨by decide, drag_updates_only_selected_artist links3 positions3
    (create_artists links3 positions3) 1 (10, 0) 3 (by decide)⟩

/-- C4 (counterexample): in the spec scenario (rows `1,1` then `2,1`,
loop at the origin, link 2 at `(1, 0)`), link 2's `to` endpoint is the
self-loop's *raw stored position* `(0, 0)`, while the self-loop angle
rule would yield `(147/2000, 0)` — a different point. -/
theorem regular_link_to_loop_uses_raw_position :
    _create_link_artist links4 positions4 2 = .arrowA (1/2, 0) (0, 0) ∧
    posGet positions4 1 = (0, 0) ∧
    is_loop_connection_point (0, 0) (1, 0) (147/2000, 0) ∧
    ((147 : ℚ)/2000, (0 : ℚ)) ≠ ((0 : ℚ), (0 : ℚ)) := by
  refine ⟨?_, ?_, ⟨⟨147/2000, by norm_num, by norm_num, by norm_num⟩, ?_⟩,
    by norm_num⟩
  · norm_num [_create_link_artist, _draw_regular_link, links4, positions4,
      posGet, posGetOpt, lookupD, hasKey]
  · norm_num [posGet, positions4, lookupD]
  · norm_num [node_size]

/-- C4 (amended): whenever a regular link's `to` reference resolves to a
self-loop (`from == to`), `_draw_regular_link` uses the loop's raw
stored position as the endpoint; the self-loop angle rule is *not*
applied — indeed any point satisfying that rule lies at positive
distance from the loop center and therefore differs from it. -/
theorem loop_target_endpoint_is_raw_position (links : LinksMap)
    (positions : Positions) (f t : Int)
    (h2 : (lookupD links t ⟨none, none⟩).fromId =
      (lookupD links t ⟨none, none⟩).toId) :
    (_draw_regular_link links positions f t).2 = posGet positions t ∧
    ∀ c tp q : Point, is_loop_connection_point c tp q → q ≠ c := by
  constructor
  · simp [_draw_regular_link, h2]
  · intro c tp q hq heq
    have hd := hq.2
    rw [heq] at hd
    simp only [sub_self] at hd
    norm_num [node_size] at hd

/-- Witness for C4's amended theorem at the spec scenario. -/
theorem loop_target_endpoint_is_raw_position_witness :
    (lookupD links4 1 ⟨none, none⟩).fromId =
      (lookupD links4 1 ⟨none, none⟩).toId ∧
    ((_draw_regular_link links4 positions4 2 1).2 = posGet positions4 1 ∧
      ∀ c tp q : Point, is_loop_connection_point c tp q → q ≠ c) :=
  ⟨by decide, loop_target_endpoint_is_raw_position links4 positions4 2 1
    (by decide)⟩

/-- C5 (counterexample): on positions spanning `x ∈ [0,10]`, `y ∈ [0,0]`,
the links canvas's auto-fit (`reset_view`) pads with
`max(0.2, range * 0.2)` and no zero-range case, producing an x-range of
width 14 and a y-range of width 2/5 — not the claimed 16 and 1. -/
theorem reset_view_padding_differs :
    reset_view positions5 = some (⟨(-2, 12), (-1/5, 1/5)⟩, 1) ∧
    (12 : ℚ) - (-2) = 14 ∧ ((1 : ℚ)/5 - (-1/5)) = 2/5 ∧
    (14 : ℚ) ≠ 16 ∧ (2 : ℚ)/5 ≠ 1 := by
  refine ⟨?_, by norm_num, by norm_num, by norm_num, by norm_num⟩
  unfold reset_view
  rw [if_neg (show ¬(positions5 = []) by simp [positions5])]
  norm_num [positions5, minList, maxList, List.foldl]

/-- C5 (amended): the plain-graph canvases' `auto_scale` follows the
claimed padding rule exactly — `max(0.2, range*0.3)` for a positive
range, `0.5` for a zero range, zoom factor reset to 1 — yielding widths
16 and 1 on the example; the links canvas's `reset_view` instead uses
`max(0.2, range*0.2)` with no zero-range case (previous theorem). -/
theorem auto_scale_padding_matches_spec (positions : Positions)
    (h : positions ≠ []) :
    auto_scale positions =
      some (⟨autofit_xlim positions, autofit_ylim positions⟩, 1) ∧
    auto_scale positions5 = some (⟨(-3, 13), (-1/2, 1/2)⟩, 1) := by
  constructor
  · cases positions with
    | nil => exact absurd rfl h
    | cons a t => rfl
  · unfold auto_scale
    rw [if_neg (show ¬(positions5 = []) by simp [positions5])]
    norm_num [positions5, minList, maxList, List.foldl]

/-- Witness for C5's amended theorem at the spec's example positions. -/
theorem auto_scale_padding_matches_spec_witness :
    positions5 ≠ [] ∧
    (auto_scale positions5 =
      some (⟨autofit_xlim positions5, autofit_ylim positions5⟩, 1) ∧
     auto_scale positions5 = some (⟨(-3, 13), (-1/2, 1/2)⟩, 1)) :=
  ⟨by simp [positions5], auto_scale_padding_matches_spec positions5
    (by simp [positions5])⟩

/-- C6 (counterexample): `set_zoom` is relative, not absolute.  Starting
from the auto-fit extent of the example positions (x-width 16), setting
zoom level 2 and then level 1.0 leaves the x-range at `(1, 9)` — width
8, not the auto-fit width 16 the claim promises for level 1.0. -/
theorem set_zoom_compounds :
    auto_scale positions5 = some (⟨(-3, 13), (-1/2, 1/2)⟩, 1) ∧
    (set_zoom (set_zoom ⟨(-3, 13), (-1/2, 1/2)⟩ 2).1 1).1.xlim = (1, 9) ∧
    (9 : ℚ) - 1 ≠ (13 : ℚ) - (-3) := by
  refine ⟨?_, by norm_num [set_zoom], by norm_num⟩
  unfold auto_scale
  rw [if_neg (show ¬(positions5 = []) by simp [positions5])]
  norm_num [positions5, minList, maxList, List.foldl]

/-- C6 (amended): only the plain-graph app's slider path
(`GraphViewer.adjust_zoom`) is absolute: it produces a viewport of size
`baseRange / level` where `baseRange` is recomputed with the auto-fit
padding rule, centered on the current view center, so setting level L
then 1.0 restores the auto-fit extent there.  The links canvas's
`set_zoom` slider path divides the *current* range instead (previous
theorem), so levels compound. -/
theorem adjust_zoom_absolute_from_base (positions : Positions)
    (v : Viewport) (value : ℚ) (h : positions ≠ []) (hz : value ≠ 0) :
    ∃ w : Viewport × ℚ, adjust_zoom positions v value = some w ∧
      w.2 = value / 100 ∧
      (w.1.xlim.2 - w.1.xlim.1) * (value / 100) =
        (autofit_xlim positions).2 - (autofit_xlim positions).1 ∧
      (w.1.ylim.2 - w.1.ylim.1) * (value / 100) =
        (autofit_ylim positions).2 - (autofit_ylim positions).1 ∧
      (w.1.xlim.1 + w.1.xlim.2) / 2 = (v.xlim.1 + v.xlim.2) / 2 ∧
      (w.1.ylim.1 + w.1.ylim.2) / 2 = (v.ylim.1 + v.ylim.2) / 2 := by
  cases positions with
  | nil => exact absurd rfl h
  | cons a t =>
    refine ⟨_, rfl, rfl, ?_, ?_, ?_, ?_⟩ <;>
      simp only [autofit_xlim, autofit_ylim, specPadding] <;>
      field_simp <;>
      ring

/-- Witness for C6's amended theorem at the example positions, an
arbitrary current viewport, and slider value 50 (level 0.5). -/
theorem adjust_zoom_absolute_from_base_witness :
    positions5 ≠ [] ∧ (50 : ℚ) ≠ 0 ∧
    (∃ w : Viewport × ℚ, adjust_zoom positions5 v7 50 = some w ∧
      w.2 = 50 / 100 ∧
      (w.1.xlim.2 - w.1.xlim.1) * (50 / 100) =
        (autofit_xlim positions5).2 - (autofit_xlim positions5).1 ∧
      (w.1.ylim.2 - w.1.ylim.1) * (50 / 100) =
        (autofit_ylim positions5).2 - (autofit_ylim positions5).1 ∧
      (w.1.xlim.1 + w.1.xlim.2) / 2 = (v7.xlim.1 + v7.xlim.2) / 2 ∧
      (w.1.ylim.1 + w.1.ylim.2) / 2 = (v7.ylim.1 + v7.ylim.2) / 2) :=
  ⟨by simp [positions5], by norm_num,
    adjust_zoom_absolute_from_base positions5 v7 50 (by simp [positions5])
      (by norm_num)⟩

/-- C7 (counterexample): an entity whose stored center has x-coordinate
exactly 0 can never be hit at its own center: the query `(0, 1/2)` is
rejected by the falsy-coordinate guard even though the entity's center
lies (trivially) within the node radius of the query point. -/
theorem hit_test_misses_zero_coordinate_center :
    _get_link_at_position m7 v7 positions7 (0, 1/2) = none ∧
    posGet positions7 1 = (0, 1/2) ∧
    withinRadius (node_radius m7 v7) (0, 1/2) (1, (0, 1/2)) ∧
    (none : Option Int) ≠ some 1 := by
  refine ⟨?_, ?_, ?_, by simp⟩
  · simp [_get_link_at_position]
  · norm_num [posGet, positions7, lookupD]
  · norm_num [withinRadius, node_radius, m7, v7]

/-- C7 (amended): hit/render consistency holds only conditionally: when
both coordinates of the entity's position are nonzero, the viewport is
non-degenerate, and no earlier-inserted entity lies within the node
radius of that position (the hit test returns the *first* match in
insertion order), `entityAt(position(e))` returns `e`; the entity's own
center always passes the radius test since its distance is 0. -/
theorem hit_test_returns_self_when_first (m : FigMetrics) (v : Viewport)
    (ps qs : Positions) (e : Int) (p : Point)
    (hx : p.1 ≠ 0) (hy : p.2 ≠ 0)
    (hvx : v.xlim.2 - v.xlim.1 ≠ 0) (hvy : v.ylim.2 - v.ylim.1 ≠ 0)
    (hfirst : ∀ q ∈ ps, ¬ withinRadius (node_radius m v) p q) :
    _get_link_at_position m v (ps ++ (e, p) :: qs) p = some e := by
  have h1 : ¬(p.1 = 0 ∨ p.2 = 0) := by tauto
  have h2 : ¬(v.xlim.2 - v.xlim.1 = 0 ∨ v.ylim.2 - v.ylim.1 = 0) := by tauto
  simp only [_get_link_at_position, if_neg h1, if_neg h2]
  induction ps with
  | nil =>
    rw [List.nil_append]
    simp only [findWithin]
    rw [if_pos (by simpa [withinRadius] using sq_nonneg (node_radius m v))]
  | cons a t ih =>
    have ha : ¬ withinRadius (node_radius m v) p a := hfirst a (by simp)
    rw [List.cons_append]
    simp only [findWithin]
    rw [if_neg ha]
    exact ih (fun q hq => hfirst q (by simp [hq]))

/-- Witness for C7's amended theorem: a lone entity at `(1, 1)`. -/
theorem hit_test_returns_self_when_first_witness :
    ((1 : ℚ) ≠ 0) ∧ (v7.xlim.2 - v7.xlim.1 ≠ 0) ∧
    (v7.ylim.2 - v7.ylim.1 ≠ 0) ∧
    (∀ q ∈ ([] : Positions), ¬ withinRadius (node_radius m7 v7) (1, 1) q) ∧
    _get_link_at_position m7 v7 ([] ++ (1, ((1 : ℚ), (1 : ℚ))) :: []) (1, 1) =
      some 1 :=
  ⟨one_ne_zero, by norm_num [v7], by norm_num [v7], by simp,
    hit_test_returns_self_when_first m7 v7 [] [] 1 (1, 1) one_ne_zero
      one_ne_zero (by norm_num [v7]) (by norm_num [v7]) (by simp)⟩

/-- C8 (counterexample): a non-numeric reference value does *not*
produce a link with an absent reference — the row is skipped entirely
(only a blank value maps to an absent reference). -/
theorem nonnumeric_row_skipped :
    parseRows [[.garbage, .numeral 2]] = [] ∧
    parseRows [[.garbage, .numeral 2]] ≠ [(1, ⟨none, some 2⟩)] ∧
    parseRows [[.blank, .numeral 2]] = [(1, ⟨none, some 2⟩)] := by
  decide

/-- C8 (amended): a *blank* value is treated as absent and the row still
produces a link (a bare node when a reference is absent); a non-numeric
value raises `ValueError` and the whole row is skipped, producing no
link (though this alone is not a load-level error); link ids are 1-based
row indices, and skipped rows still consume an id. -/
theorem parse_blank_absent_nonnumeric_skipped (t : Cell)
    (tv : Option Int) (ht : parseVal t = .ok tv) :
    parseRows [[.blank, t], [.garbage, t], [.blank, t]] =
      [(1, ⟨none, tv⟩), (3, ⟨none, tv⟩)] := by
  cases t with
  | blank =>
    obtain rfl : tv = none := by simpa [parseVal] using ht.symm
    simp [parseRows, List.enum, List.enumFrom, parseRow, parseVal]
  | numeral n =>
    obtain rfl : tv = some n := by simpa [parseVal] using ht.symm
    simp [parseRows, List.enum, List.enumFrom, parseRow, parseVal]
  | garbage => simp [parseVal] at ht

/-- Witness for C8's amended theorem with the numeric cell `2`. -/
theorem parse_blank_absent_nonnumeric_skipped_witness :
    parseVal (.numeral 2) = .ok (some 2) ∧
    parseRows [[.blank, .numeral 2], [.garbage, .numeral 2],
        [.blank, .numeral 2]] =
      [(1, ⟨none, some 2⟩), (3, ⟨none, some 2⟩)] :=
  ⟨rfl, parse_blank_absent_nonnumeric_skipped (.numeral 2) (some 2) rfl⟩

/-- C9 (confirmed): any query point with x-coordinate or y-coordinate
exactly 0 is rejected by the hit test's truthiness guard, regardless of
the viewport, the metrics, and whatever entities are within radius. -/
theorem hit_test_none_on_zero_coordinate (m : FigMetrics) (v : Viewport)
    (positions : Positions) (x y : ℚ) (h : x = 0 ∨ y = 0) :
    _get_link_at_position m v positions (x, y) = none := by
  simp only [_get_link_at_position]
  rw [if_pos h]

/-- Witness for C9 at a query on the y-axis with an entity centered
exactly there (so it is within the node radius, yet unclickable). -/
theorem hit_test_none_on_zero_coordinate_witness :
    ((0 : ℚ) = 0 ∨ (1 : ℚ) / 2 = 0) ∧
    withinRadius (node_radius m7 v7) (0, 1/2) (1, (0, 1/2)) ∧
    _get_link_at_position m7 v7 positions7 (0, 1/2) = none :=
  ⟨Or.inl rfl, by norm_num [withinRadius, node_radius, m7, v7],
    hit_test_none_on_zero_coordinate m7 v7 positions7 0 (1/2) (Or.inl rfl)⟩

/-- C10 (confirmed): `get_stats` counts a link as a self-link whenever
`from == to`, without requiring them to equal the link's own id; every
link the renderer classifies as a self-loop is counted, and the example
(a true loop, a bare node with `None == None`, and a link with
`from == to == 7`) has selfLinkCount 3 but only 1 rendered loop. -/
theorem self_link_count_over_approximates_loops :
    (∀ links : LinksMap,
      (links.countP fun p => decide (artistKind p.1 p.2 = .loop)) ≤
        (get_stats links).2) ∧
    get_stats links10 = (3, 3) ∧
    (links10.countP fun p => decide (artistKind p.1 p.2 = .loop)) = 1 ∧
    (1 : ℕ) < 3 := by
  refine ⟨?_, by decide, by decide, by decide⟩
  intro links
  simp only [get_stats]
  apply List.countP_mono_left
  intro x _ hx
  simp only [decide_eq_true_eq] at hx ⊢
  by_cases hc : x.2.fromId = some x.1 ∧ x.2.toId = some x.1
  · rw [hc.1, hc.2]
  · exfalso
    simp only [artistKind, if_neg hc] at hx
    split at hx <;> simp_all

end DeepLinkView
